import Mathlib

/-!
Verification development for the AgriAssist monitoring module
(src/firestudio/backend/monitoring.py).

The module wraps operations with telemetry: a request counter incremented at
entry, a success/error structured log, and a duration histogram observation in
a finally block.  We embed the wrapper as a pure function producing the
operation result together with the ordered trace of telemetry events.  Real
time is modelled by a clock `Nat → Rat` giving the value returned by the n-th
call of time.time() inside one wrapped invocation (calls numbered in order of
execution).  Telemetry sinks may themselves fail; the `TelemetryFx` record says
which of the four telemetry calls of one invocation raises, and with which
error description.  Python exceptions are modelled as `Except String`, a raised
exception being its str() description.
-/

/-- Log levels of the structured logger. -/
inductive Level
  | debug
  | info
  | warn
  | error
deriving DecidableEq, Repr

/-- A value of a structured-log field: a string or a number (Python floats are
modelled as exact rationals). -/
inductive FieldVal
  | str (s : String)
  | num (q : Rat)
deriving DecidableEq, Repr

/-- One telemetry side effect, in the order it is performed:
a labeled counter increment, a histogram observation, or a structured log
emission with its level, message and fields. -/
inductive Event
  | counterInc (metric : String) (labels : List (String × String))
  | histObserve (metric : String) (value : Rat)
  | log (lvl : Level) (msg : String) (fields : List (String × FieldVal))
deriving DecidableEq, Repr

/-- Which telemetry calls of one wrapped invocation themselves raise.
`none` means the call succeeds; `some e` means it raises an exception whose
description is `e`.  The four calls are: REQUEST_COUNT...inc() at entry,
logger.info on the success path, logger.error on the failure path, and
REQUEST_DURATION.observe in the finally block.  A failing call performs no
side effect (emits no event). -/
structure TelemetryFx where
  incFails : Option String
  logInfoFails : Option String
  logErrorFails : Option String
  observeFails : Option String
deriving DecidableEq, Repr

/-- All telemetry sinks healthy: no telemetry call raises. -/
def TelemetryFx.healthy : TelemetryFx := ⟨none, none, none, none⟩

/-- Shallow embedding of `monitor_endpoint(endpoint_name)` applied to an
operation, from src/firestudio/backend/monitoring.py (lines 35-65).

The Python wrapper is:
  start_time = time.time()                                      -- clock 0
  REQUEST_COUNT.labels(method='POST', endpoint=endpoint_name).inc()
  try:
      result = await func(*args, **kwargs)
      logger.info("API request completed", endpoint=..., duration=time.time()-start_time, status="success")
      return result
  except Exception as e:
      logger.error("API request failed", endpoint=..., duration=time.time()-start_time, error=str(e), status="error")
      raise
  finally:
      REQUEST_DURATION.observe(time.time() - start_time)

Control flow modelled exactly: if the counter increment raises, the try block
is never entered, so neither log nor observation happens; logger.info sits
inside the try block, so its failure is caught by the except clause, logged as
an error, and re-raised; a failure of logger.error replaces the in-flight
exception; the finally block always runs once the try block was entered, and a
failure of observe replaces any in-flight return or exception.  Each duration
argument consumes the next clock index (Python evaluates the argument before
the log call can raise). -/
def monitor_endpoint (endpoint_name : String) (fx : TelemetryFx)
    (clock : Nat → Rat) (func : Except String α) :
    Except String α × List Event :=
  let t0 := clock 0
  match fx.incFails with
  | some e => (Except.error e, [])
  | none =>
    let incEv : Event := Event.counterInc "agriassist_requests_total"
        [("method", "POST"), ("endpoint", endpoint_name)]
    let body : Except String α × List Event × Nat :=
      match func with
      | Except.ok r =>
        let d1 := clock 1 - t0
        match fx.logInfoFails with
        | none =>
          (Except.ok r,
           [Event.log Level.info "API request completed"
              [("endpoint", FieldVal.str endpoint_name), ("duration", FieldVal.num d1),
               ("status", FieldVal.str "success")]],
           2)
        | some e2 =>
          let d2 := clock 2 - t0
          match fx.logErrorFails with
          | none =>
            (Except.error e2,
             [Event.log Level.error "API request failed"
                [("endpoint", FieldVal.str endpoint_name), ("duration", FieldVal.num d2),
                 ("error", FieldVal.str e2), ("status", FieldVal.str "error")]],
             3)
          | some e3 => (Except.error e3, [], 3)
      | Except.error e =>
        let d1 := clock 1 - t0
        match fx.logErrorFails with
        | none =>
          (Except.error e,
           [Event.log Level.error "API request failed"
              [("endpoint", FieldVal.str endpoint_name), ("duration", FieldVal.num d1),
               ("error", FieldVal.str e), ("status", FieldVal.str "error")]],
           2)
        | some e3 => (Except.error e3, [], 2)
    let dFin := clock body.2.2 - t0
    match fx.observeFails with
    | some e4 => (Except.error e4, incEv :: body.2.1)
    | none =>
      (body.1,
       incEv :: body.2.1
         ++ [Event.histObserve "agriassist_request_duration_seconds" dFin])

/-- Is this event a histogram observation? -/
def Event.isObserve : Event → Bool
  | Event.histObserve _ _ => true
  | _ => false

/-- Is this event a counter increment? -/
def Event.isInc : Event → Bool
  | Event.counterInc _ _ => true
  | _ => false

/-- Is this event a structured-log emission? -/
def Event.isLogEv : Event → Bool
  | Event.log _ _ _ => true
  | _ => false

/-- The values observed on the duration histogram, in trace order. -/
def observedDurations (tr : List Event) : List Rat :=
  tr.filterMap fun e =>
    match e with
    | Event.histObserve "agriassist_request_duration_seconds" v => some v
    | _ => none

/-- The clock index of the time.time() call made in the finally block, per
control path: index 2 normally (entry, one log duration, finally), index 3
when logger.info raised on the success path (its duration argument and the
error log's duration argument each consumed an index). -/
def finalClockIndex (fx : TelemetryFx) (func : Except String α) : Nat :=
  match func with
  | Except.ok _ => match fx.logInfoFails with | none => 2 | some _ => 3
  | Except.error _ => 2

/-- The kind of a Prometheus instrument. -/
inductive MetricKind
  | counter
  | histogram
  | gauge
deriving DecidableEq, Repr

/-- A metric definition: name, kind, help text and the fixed label names, as
passed to the prometheus_client constructors. -/
structure MetricDef where
  name : String
  kind : MetricKind
  help : String
  labelnames : List String
deriving DecidableEq, Repr

/-- Counter('agriassist_requests_total', 'Total requests', ['method', 'endpoint'])
(monitoring.py line 8). -/
def REQUEST_COUNT : MetricDef :=
  ⟨"agriassist_requests_total", MetricKind.counter, "Total requests",
   ["method", "endpoint"]⟩

/-- Histogram('agriassist_request_duration_seconds', 'Request duration')
(monitoring.py line 9): no label names. -/
def REQUEST_DURATION : MetricDef :=
  ⟨"agriassist_request_duration_seconds", MetricKind.histogram,
   "Request duration", []⟩

/-- Gauge('agriassist_active_connections', 'Active connections')
(monitoring.py line 10). -/
def ACTIVE_CONNECTIONS : MetricDef :=
  ⟨"agriassist_active_connections", MetricKind.gauge, "Active connections", []⟩

/-- Counter('agriassist_sensor_data_total', 'Total sensor data points')
(monitoring.py line 11): constructed with NO label names. -/
def SENSOR_DATA_COUNT : MetricDef :=
  ⟨"agriassist_sensor_data_total", MetricKind.counter,
   "Total sensor data points", []⟩

/-- Counter('agriassist_model_predictions_total', 'ML model predictions', ['model_type'])
(monitoring.py line 12). -/
def MODEL_PREDICTIONS : MetricDef :=
  ⟨"agriassist_model_predictions_total", MetricKind.counter,
   "ML model predictions", ["model_type"]⟩

/-- Model of prometheus_client's MetricWrapperBase.labels(**labelkwargs), the
method the repository calls on its counters.  Its first action is
`if not self._labelnames: raise ValueError('No label names were set when
constructing %s' % self)`; then keyword names must coincide with the declared
label names (`if sorted(labelkwargs) != sorted(self._labelnames): raise
ValueError('Incorrect label names')`); on success the metric child for that
label-value combination is selected, here returned as the name/value pairs in
declared order. -/
def labelsCall (m : MetricDef) (labelkwargs : List (String × String)) :
    Except String (List (String × String)) :=
  if m.labelnames = [] then
    Except.error ("No label names were set when constructing " ++ m.name)
  else if (labelkwargs.map Prod.fst).mergeSort (· ≤ ·)
        ≠ m.labelnames.mergeSort (· ≤ ·) then
    Except.error "Incorrect label names"
  else
    Except.ok (m.labelnames.filterMap fun n =>
      (labelkwargs.lookup n).map fun v => (n, v))

/-- Model of prometheus_client's CollectorRegistry.register, which runs when a
metric is constructed: if the collector's name collides with one already
registered it raises `ValueError('Duplicated timeseries in CollectorRegistry:
...')`.  There is no idempotence check: a second registration with an
identical definition collides all the same.  On success the definition is
appended. -/
def registerMetric (reg : List MetricDef) (d : MetricDef) :
    Except String (List MetricDef) :=
  if reg.any (fun m => m.name = d.name) then
    Except.error ("Duplicated timeseries in CollectorRegistry: " ++ d.name)
  else
    Except.ok (reg ++ [d])

/-- Shallow embedding of `log_sensor_data(device_id, data_type)`
(monitoring.py lines 67-75):

  SENSOR_DATA_COUNT.labels().inc()
  logger.info("Sensor data received", device_id=device_id, data_type=data_type, timestamp=time.time())

`now` is the time.time() value.  The labels() call is the library method
modelled by `labelsCall`, applied with no keyword arguments; if it raises, the
exception propagates and nothing is incremented or logged. -/
def log_sensor_data (device_id data_type : String) (now : Rat) :
    Except String (List Event) :=
  match labelsCall SENSOR_DATA_COUNT [] with
  | Except.error e => Except.error e
  | Except.ok lbls =>
    Except.ok
      [Event.counterInc SENSOR_DATA_COUNT.name lbls,
       Event.log Level.info "Sensor data received"
         [("device_id", FieldVal.str device_id),
          ("data_type", FieldVal.str data_type),
          ("timestamp", FieldVal.num now)]]

/-- Shallow embedding of `log_ml_prediction(model_type, confidence)`
(monitoring.py lines 77-85):

  MODEL_PREDICTIONS.labels(model_type=model_type).inc()
  logger.info("ML prediction made", model_type=model_type, confidence=confidence, timestamp=time.time())

`now` is the time.time() value; `confidence` (a Python float) is modelled as
an exact rational. -/
def log_ml_prediction (model_type : String) (confidence : Rat) (now : Rat) :
    Except String (List Event) :=
  match labelsCall MODEL_PREDICTIONS [("model_type", model_type)] with
  | Except.error e => Except.error e
  | Except.ok lbls =>
    Except.ok
      [Event.counterInc MODEL_PREDICTIONS.name lbls,
       Event.log Level.info "ML prediction made"
         [("model_type", FieldVal.str model_type),
          ("confidence", FieldVal.num confidence),
          ("timestamp", FieldVal.num now)]]

/-- The structlog processing stages named in the structlog.configure call
(monitoring.py lines 15-31), one constructor per processor. -/
inductive Stage
  | filter_by_level
  | add_logger_name
  | add_log_level
  | positionalArgumentsFormatter
  | timeStamper
  | stackInfoRenderer
  | format_exc_info
  | unicodeDecoder
  | jsonRenderer
deriving DecidableEq, Repr

/-- The configured processor chain, in the order given to structlog.configure
(monitoring.py lines 16-26). -/
def processors : List Stage :=
  [Stage.filter_by_level,
   Stage.add_logger_name,
   Stage.add_log_level,
   Stage.positionalArgumentsFormatter,
   Stage.timeStamper,
   Stage.stackInfoRenderer,
   Stage.format_exc_info,
   Stage.unicodeDecoder,
   Stage.jsonRenderer]

/-- Numeric value of a log level, mirroring the stdlib logging levels that
structlog.stdlib.filter_by_level compares against. -/
def levelNum : Level → Nat
  | Level.debug => 10
  | Level.info => 20
  | Level.warn => 30
  | Level.error => 40

/-- Result of pushing one record through a processor chain: how many
serialized JSON texts were produced, and which stages ran, in order. -/
structure PipeResult where
  emitted : Nat
  ran : List Stage
deriving DecidableEq, Repr

/-- Run of a record of level `lvl` through a processor chain under configured
minimum level `minLevel`: filter_by_level drops the record (no further stage
runs and nothing is emitted) when the level is below the minimum; every other
enrichment stage passes the record on; jsonRenderer serializes it to one JSON
object text, the chain's only externally visible output. -/
def runPipeline (minLevel lvl : Level) : List Stage → PipeResult
  | [] => ⟨0, []⟩
  | s :: rest =>
    if s = Stage.filter_by_level ∧ levelNum lvl < levelNum minLevel then
      ⟨0, [s]⟩
    else
      let r := runPipeline minLevel lvl rest
      ⟨(if s = Stage.jsonRenderer then 1 else 0) + r.emitted, s :: r.ran⟩

/-- The record returned by health_check (monitoring.py lines 93-104). -/
structure HealthStatus where
  status : String
  timestamp : Rat
  version : String
  services : List (String × String)
deriving DecidableEq, Repr

/-- Shallow embedding of `health_check()` (monitoring.py lines 93-104): a pure
data assembly whose only varying part is the time.time() value `now`. -/
def health_check (now : Rat) : HealthStatus :=
  ⟨"healthy", now, "1.0.0",
   [("database", "connected"), ("cache", "connected"),
    ("external_apis", "connected")]⟩

/-- Claim C1: every wrapped invocation records exactly one histogram
observation of the request duration, on every exit path — normal return,
failure of the operation, and a failure raised inside the success or error
logging itself — never zero, never two.  Stated for invocations whose metric
calls themselves succeed (the exit paths the claim enumerates); the log calls
may fail arbitrarily. -/
theorem monitor_endpoint_observes_exactly_once
    (endpoint_name : String) (fx : TelemetryFx) (clock : Nat → Rat)
    (func : Except String α)
    (hinc : fx.incFails = none) (hobs : fx.observeFails = none) :
    ((monitor_endpoint endpoint_name fx clock func).2.countP Event.isObserve)
      = 1 := by
  obtain ⟨i, li, le, ob⟩ := fx
  cases hinc
  cases hobs
  cases func <;> cases li <;> cases le <;>
    simp [monitor_endpoint, Event.isObserve, List.countP_cons, List.countP_append]

/-- Witness for C1 at a concrete input where the success log itself fails. -/
theorem monitor_endpoint_observes_exactly_once_w :
    ((monitor_endpoint "upload" ⟨none, some "boom", none, none⟩ (fun _ => 0)
        (Except.ok (42 : Nat))).2.countP Event.isObserve) = 1 :=
  monitor_endpoint_observes_exactly_once "upload" ⟨none, some "boom", none, none⟩
    (fun _ => 0) (Except.ok 42) rfl rfl

/-- Claim C2: when telemetry is healthy and the wrapped operation fails with
error `e`, the wrapper emits exactly one error-level structured log with
fields endpoint, duration, error = description of `e`, status = "error", and
re-raises `e` unchanged, so the caller observes exactly the original failure.
Stated as the full result and trace, which exhibit the single error log and
the unchanged propagated failure. -/
theorem monitor_endpoint_failure_reraises
    (endpoint_name : String) (fx : TelemetryFx) (clock : Nat → Rat)
    (e : String)
    (hinc : fx.incFails = none) (herr : fx.logErrorFails = none)
    (hobs : fx.observeFails = none) :
    monitor_endpoint endpoint_name fx clock (Except.error e : Except String α)
      = (Except.error e,
         [Event.counterInc "agriassist_requests_total"
            [("method", "POST"), ("endpoint", endpoint_name)],
          Event.log Level.error "API request failed"
            [("endpoint", FieldVal.str endpoint_name),
             ("duration", FieldVal.num (clock 1 - clock 0)),
             ("error", FieldVal.str e), ("status", FieldVal.str "error")],
          Event.histObserve "agriassist_request_duration_seconds"
            (clock 2 - clock 0)]) := by
  obtain ⟨i, li, le, ob⟩ := fx
  cases hinc
  cases herr
  cases hobs
  simp [monitor_endpoint]

/-- Witness for C2 at a concrete failing operation. -/
theorem monitor_endpoint_failure_reraises_w :
    monitor_endpoint "upload" TelemetryFx.healthy (fun _ => 0)
        (Except.error "disk full" : Except String Nat)
      = (Except.error "disk full",
         [Event.counterInc "agriassist_requests_total"
            [("method", "POST"), ("endpoint", "upload")],
          Event.log Level.error "API request failed"
            [("endpoint", FieldVal.str "upload"),
             ("duration", FieldVal.num ((fun _ => (0:Rat)) 1 - (fun _ => (0:Rat)) 0)),
             ("error", FieldVal.str "disk full"),
             ("status", FieldVal.str "error")],
          Event.histObserve "agriassist_request_duration_seconds"
            ((fun _ => (0:Rat)) 2 - (fun _ => (0:Rat)) 0)]) :=
  monitor_endpoint_failure_reraises "upload" TelemetryFx.healthy
    (fun _ => 0) "disk full" rfl rfl rfl

/-- Claim C3 divergence: the wrapped operation itself completes normally
(Except.ok 42), only the success-path logger.info raises, yet the caller
observes the telemetry-raised error — the code propagates it (the except
clause catches the logging failure, logs it as an API error and re-raises),
where the claim requires that a telemetry failure never reach the caller. -/
theorem telemetry_failure_reaches_caller :
    (monitor_endpoint "upload" ⟨none, some "log sink down", none, none⟩
        (fun _ => 0) (Except.ok (42 : Nat))).1
      = Except.error "log sink down" := rfl

/-- Claim C4 divergence: log_sensor_data calls .labels() on
SENSOR_DATA_COUNT, a counter constructed with no label names, so every call
raises the library's "No label names were set" ValueError before any counter
increment or log emission — the recorder always fails and records nothing,
where the claim says it increments one labeled counter with labels drawn from
its arguments, emits one info log, and never fails. -/
theorem log_sensor_data_always_raises (device_id data_type : String)
    (now : Rat) :
    log_sensor_data device_id data_type now
      = Except.error
          "No label names were set when constructing agriassist_sensor_data_total" :=
  rfl

/-- Claim C5: when telemetry is healthy and the wrapped operation completes
normally with result `r`, the wrapper returns exactly `r` unchanged and emits
exactly one info-level structured log with fields endpoint, duration = now
minus start instant, status = "success".  Stated as the full result and
trace. -/
theorem monitor_endpoint_success_path
    (endpoint_name : String) (fx : TelemetryFx) (clock : Nat → Rat) (r : α)
    (hinc : fx.incFails = none) (hinfo : fx.logInfoFails = none)
    (hobs : fx.observeFails = none) :
    monitor_endpoint endpoint_name fx clock (Except.ok r)
      = (Except.ok r,
         [Event.counterInc "agriassist_requests_total"
            [("method", "POST"), ("endpoint", endpoint_name)],
          Event.log Level.info "API request completed"
            [("endpoint", FieldVal.str endpoint_name),
             ("duration", FieldVal.num (clock 1 - clock 0)),
             ("status", FieldVal.str "success")],
          Event.histObserve "agriassist_request_duration_seconds"
            (clock 2 - clock 0)]) := by
  obtain ⟨i, li, le, ob⟩ := fx
  cases hinc
  cases hinfo
  cases hobs
  simp [monitor_endpoint]

/-- Witness for C5 at a concrete succeeding operation. -/
theorem monitor_endpoint_success_path_w :
    monitor_endpoint "upload" TelemetryFx.healthy (fun _ => 0)
        (Except.ok (42 : Nat))
      = (Except.ok 42,
         [Event.counterInc "agriassist_requests_total"
            [("method", "POST"), ("endpoint", "upload")],
          Event.log Level.info "API request completed"
            [("endpoint", FieldVal.str "upload"),
             ("duration", FieldVal.num ((fun _ => (0:Rat)) 1 - (fun _ => (0:Rat)) 0)),
             ("status", FieldVal.str "success")],
          Event.histObserve "agriassist_request_duration_seconds"
            ((fun _ => (0:Rat)) 2 - (fun _ => (0:Rat)) 0)]) :=
  monitor_endpoint_success_path "upload" TelemetryFx.healthy (fun _ => 0) 42
    rfl rfl rfl

/-- Claim C6: on every wrapped invocation (whose entry increment itself does
not raise), the request counter labeled method and endpoint = operation name
is incremented exactly once, and that increment is the first telemetry event
of the invocation — before the operation executes, so attempts are counted
even when the operation or the logging subsequently fails. -/
theorem request_counter_incremented_first
    (endpoint_name : String) (fx : TelemetryFx) (clock : Nat → Rat)
    (func : Except String α) (hinc : fx.incFails = none) :
    (monitor_endpoint endpoint_name fx clock func).2.head?
        = some (Event.counterInc "agriassist_requests_total"
            [("method", "POST"), ("endpoint", endpoint_name)])
    ∧ (monitor_endpoint endpoint_name fx clock func).2.countP Event.isInc
        = 1 := by
  obtain ⟨i, li, le, ob⟩ := fx
  cases hinc
  cases func <;> cases li <;> cases le <;> cases ob <;>
    simp [monitor_endpoint, Event.isInc, List.countP_cons, List.countP_append]

/-- Witness for C6 at a concrete input where the operation fails and the
error log also fails. -/
theorem request_counter_incremented_first_w :
    (monitor_endpoint "upload" ⟨none, none, some "logger broken", none⟩
        (fun _ => 0) (Except.error "disk full" : Except String Nat)).2.head?
        = some (Event.counterInc "agriassist_requests_total"
            [("method", "POST"), ("endpoint", "upload")])
    ∧ (monitor_endpoint "upload" ⟨none, none, some "logger broken", none⟩
        (fun _ => 0)
        (Except.error "disk full" : Except String Nat)).2.countP Event.isInc
        = 1 :=
  request_counter_incremented_first "upload" ⟨none, none, some "logger broken", none⟩
    (fun _ => 0) (Except.error "disk full") rfl

/-- Claim C7 counterexample: re-registering REQUEST_COUNT with the identical
definition is not an idempotent no-op — the registry rejects it. -/
theorem register_identical_not_noop :
    registerMetric [REQUEST_COUNT] REQUEST_COUNT
      ≠ Except.ok [REQUEST_COUNT] := by
  simp [registerMetric]

/-- Claim C7 amended: defining a metric whose name is already registered
fails with the duplicated-timeseries error, whether or not the new definition
is identical to the registered one; redefinition is never a no-op. -/
theorem registerMetric_duplicate_name_fails (reg : List MetricDef)
    (d : MetricDef) (h : (reg.any fun m => m.name = d.name) = true) :
    registerMetric reg d
      = Except.error ("Duplicated timeseries in CollectorRegistry: " ++ d.name) := by
  simp [registerMetric, h]

/-- Witness for the amended C7: the identical re-registration of
REQUEST_COUNT fails with the duplicated-timeseries error. -/
theorem registerMetric_duplicate_name_fails_w :
    registerMetric [REQUEST_COUNT] REQUEST_COUNT
      = Except.error
          ("Duplicated timeseries in CollectorRegistry: " ++ REQUEST_COUNT.name) :=
  registerMetric_duplicate_name_fails [REQUEST_COUNT] REQUEST_COUNT (by decide)

/-- Claim C8: a record at or above the configured minimum level passes
through every configured processing stage in the configured fixed order —
level filter, logger-name and level enrichment, positional-argument
formatting, timestamp stamping, stack-info and exception rendering, unicode
normalization — and the chain produces exactly one serialized JSON text, with
the serializer as the last stage and the only serializing stage of the
chain. -/
theorem pipeline_fixed_order_single_render (minLevel lvl : Level)
    (h : levelNum minLevel ≤ levelNum lvl) :
    runPipeline minLevel lvl processors = ⟨1, processors⟩
    ∧ processors.getLast? = some Stage.jsonRenderer
    ∧ processors.countP (fun s => s = Stage.jsonRenderer) = 1 := by
  have h' : ¬ levelNum lvl < levelNum minLevel := Nat.not_lt.mpr h
  refine ⟨?_, by decide, by decide⟩
  simp [processors, runPipeline, h']

/-- Witness for C8 under minimum level debug with an info-level record. -/
theorem pipeline_fixed_order_single_render_w :
    runPipeline Level.debug Level.info processors = ⟨1, processors⟩
    ∧ processors.getLast? = some Stage.jsonRenderer
    ∧ processors.countP (fun s => s = Stage.jsonRenderer) = 1 :=
  pipeline_fixed_order_single_render Level.debug Level.info (by decide)

/-- Claim C9: under a monotone wall clock (and metric calls that themselves
succeed), the single duration observed on the histogram equals the clock
reading taken at wrap-exit in the finally block minus the reading taken at
wrap-entry, and is therefore non-negative. -/
theorem observed_duration_elapsed_nonneg
    (endpoint_name : String) (fx : TelemetryFx) (clock : Nat → Rat)
    (func : Except String α) (hmono : Monotone clock)
    (hinc : fx.incFails = none) (hobs : fx.observeFails = none) :
    observedDurations (monitor_endpoint endpoint_name fx clock func).2
        = [clock (finalClockIndex fx func) - clock 0]
    ∧ 0 ≤ clock (finalClockIndex fx func) - clock 0 := by
  refine ⟨?_, sub_nonneg.mpr (hmono (Nat.zero_le _))⟩
  obtain ⟨i, li, le, ob⟩ := fx
  cases hinc
  cases hobs
  cases func <;> cases li <;> cases le <;>
    simp [monitor_endpoint, observedDurations, finalClockIndex]

/-- Witness for C9 with the identity-on-indices clock and a succeeding
operation. -/
theorem observed_duration_elapsed_nonneg_w :
    observedDurations (monitor_endpoint "upload" TelemetryFx.healthy
        (fun k => (k : Rat)) (Except.ok (42 : Nat))).2
        = [(finalClockIndex TelemetryFx.healthy
              (Except.ok (42 : Nat) : Except String Nat) : Rat) - ((0 : Nat) : Rat)]
    ∧ (0 : Rat) ≤ (finalClockIndex TelemetryFx.healthy
              (Except.ok (42 : Nat) : Except String Nat) : Rat) - ((0 : Nat) : Rat) :=
  observed_duration_elapsed_nonneg "upload" TelemetryFx.healthy
    (fun k => (k : Rat)) (Except.ok 42) (fun _ _ hab => Nat.cast_le.mpr hab)
    rfl rfl

/-- Claim C10: health_check always returns status "healthy", version
"1.0.0", and the services mapping sending database, cache and external_apis
each to "connected", independent of any dependency state; only the timestamp
varies between calls, and the call never fails (it is a total pure
function). -/
theorem health_check_static (now : Rat) :
    (health_check now).status = "healthy"
    ∧ (health_check now).version = "1.0.0"
    ∧ (health_check now).services.lookup "database" = some "connected"
    ∧ (health_check now).services.lookup "cache" = some "connected"
    ∧ (health_check now).services.lookup "external_apis" = some "connected"
    ∧ (health_check now).timestamp = now
    ∧ ∀ t : Rat, (health_check t).status = (health_check now).status
        ∧ (health_check t).version = (health_check now).version
        ∧ (health_check t).services = (health_check now).services :=
  ⟨rfl, rfl, rfl, rfl, rfl, rfl, fun _ => ⟨rfl, rfl, rfl⟩⟩
